import Mathlib

/-!
Shallow embedding of the airthingrs telemetry collector (Rust), covering:
sensor.rs (value decoding and NaN-sensitive equality), control.rs
(binary-search query predictor and the peripheral controller), config.rs
(label loading), and the poll loop of main.rs (query_peripherals and
query_peripheral).

Modelling conventions:
* Rust `Instant` values are unbounded integers (`Int`), in seconds.
  `Duration` values are nonnegative; the configured period is a `Nat`.
  `Instant::duration_since` saturates at zero, which `durationSince`
  mirrors.
* `f32` is modelled as an exact rational plus a distinguished NaN marker
  (`F32`).  Every float appearing in the spec scenarios is exactly
  representable, so exact rational arithmetic agrees with `f32` there.
* A Rust panic is modelled by `Option`/`Outcome.panicked`: `none` (or
  `.panicked`) means the code panics rather than returning.
* Metric-sink calls are modelled as explicit `Event` values.
-/

/-- Model of `f32`: a NaN marker or an exact rational number. -/
inductive F32 where
  | nan : F32
  | num : ℚ → F32
deriving DecidableEq

/-- IEEE `is_nan`. -/
def F32.isNan : F32 → Bool
  | .nan => true
  | .num _ => false

/-- IEEE equality on floats: NaN compares unequal to everything. -/
def F32.feq : F32 → F32 → Bool
  | .num a, .num b => a == b
  | _, _ => false

/-- Rust `!=` on floats (negation of IEEE equality). -/
def F32.fne (a b : F32) : Bool := !(F32.feq a b)

/-- The struct `SensorValues` of sensor.rs (u16 fields as `Nat`). -/
structure SensorValues where
  humidity : F32
  temp : F32
  atm : F32
  radon_short : Nat
  radon_long : Nat
  co2 : Nat
  voc : Nat
deriving DecidableEq

/-- The hand-written `PartialEq for SensorValues` of sensor.rs, with its
early-return chain written as nested conditionals.  Note the NaN-asymmetric
float comparison taken verbatim from the source. -/
def SensorValues.eq (a b : SensorValues) : Bool :=
  if F32.fne a.humidity b.humidity && (!(F32.isNan a.humidity) || F32.isNan b.humidity) then false
  else if F32.fne a.temp b.temp && (!(F32.isNan a.temp) || F32.isNan b.temp) then false
  else if F32.fne a.atm b.atm && (!(F32.isNan a.atm) || F32.isNan b.atm) then false
  else if a.radon_short != b.radon_short then false
  else if a.radon_long != b.radon_long then false
  else if a.co2 != b.co2 then false
  else if a.voc != b.voc then false
  else true

/-- `SensorValues::from_vec` of sensor.rs (duplicated verbatim in main.rs).
The source advances one byte, reads humidity as a u8 at offset 1, advances
two bytes, then reads six little-endian u16 values at offsets 4, 6, 8, 10,
12, 14; the byte cursor therefore requires at least 16 bytes.  The pattern
binders below name each byte by its offset.  `none` models the panic the
bytes crate raises on an exhausted buffer: the Rust signature is
infallible, so a short payload panics instead of producing an error
value. -/
def SensorValues.fromVec : List Nat → Option SensorValues
  | _b0 :: b1 :: _b2 :: _b3 :: b4 :: b5 :: b6 :: b7 :: b8 :: b9 ::
      b10 :: b11 :: b12 :: b13 :: b14 :: b15 :: _rest =>
    some { humidity := F32.num ((b1 : ℚ) / 2),
           temp := F32.num (((b8 + 256 * b9 : Nat) : ℚ) / 100),
           atm := F32.num (((b10 + 256 * b11 : Nat) : ℚ) / 50),
           radon_short := b4 + 256 * b5,
           radon_long := b6 + 256 * b7,
           co2 := b12 + 256 * b13,
           voc := b14 + 256 * b15 }
  | _ => none

/-- `Instant::duration_since` (and the `Sub` impl of `Instant`): the elapsed
time from `b` to `a`, saturating at zero. -/
def durationSince (a b : Int) : Int := if b ≤ a then a - b else 0

/-- The struct `BinarySearchQueryControl` of control.rs:
`sensor_update_interval` (the nominal period) and the optional expected
interval `(lower, upper)`. -/
structure QueryControlState where
  sensorUpdateInterval : Nat
  expectedInterval : Option (Int × Int)
deriving DecidableEq

/-- `BinarySearchQueryControl::next_query_interval`: the upper bound for a
narrow interval (width at most 10 s), otherwise the midpoint. -/
def nextQueryInterval (e : Int × Int) : Int :=
  if durationSince e.2 e.1 ≤ 10 then e.2
  else e.1 + durationSince e.2 e.1 / 2

/-- `BinarySearchQueryControl::should_query`: `true` with no interval,
otherwise `true` iff `now` is strictly past the next query point. -/
def QueryControlState.should_query (s : QueryControlState) (now : Int) : Bool :=
  match s.expectedInterval with
  | none => true
  | some e => decide (nextQueryInterval e < now)

/-- The `while new_expected_interval.1 < now` loop of
`BinarySearchQueryControl::update` (the late-poll changed case), adding the
period to both bounds.  Fuel-indexed: `none` means the concrete fuel was
exhausted, i.e. the source loop runs forever when the period is zero. -/
def advanceFuel (p : Nat) (now : Int) : Nat → Int × Int → Option (Int × Int)
  | 0, _ => none
  | fuel + 1, e =>
      if e.2 < now then advanceFuel p now fuel (e.1 + (p : Int), e.2 + (p : Int))
      else some e

/-- The trailing re-centering block of `BinarySearchQueryControl::update`:
an interval narrower than 10 s is widened to exactly 10 s around its
center. -/
def recenter (e : Int × Int) : Int × Int :=
  if durationSince e.2 e.1 < 10 then
    ((e.1 + durationSince e.2 e.1 / 2) - 5, (e.1 + durationSince e.2 e.1 / 2) + 5)
  else e

/-- The case analysis of `BinarySearchQueryControl::update`, before the
re-centering block.  The late-poll changed case runs the advancing loop with
fuel `(now - upper).toNat + 1`, which is always sufficient when the period
is positive; `none` therefore occurs exactly when the source loop
diverges. -/
def updateRaw (s : QueryControlState) (now : Int) (changed : Bool) : Option (Int × Int) :=
  match s.expectedInterval with
  | none => some (now, now + (s.sensorUpdateInterval : Int))
  | some e =>
    if e.1 ≤ now ∧ now ≤ e.2 then
      if changed then
        some (e.1 + (s.sensorUpdateInterval : Int), now + (s.sensorUpdateInterval : Int))
      else
        some (now, e.2)
    else if e.2 < now then
      if changed then
        advanceFuel s.sensorUpdateInterval now ((now - e.2).toNat + 1) e
      else
        some (now, now + 10)
    else
      if changed then some (now, now + (s.sensorUpdateInterval : Int))
      else some e

/-- `BinarySearchQueryControl::update`: the case analysis followed by the
re-centering block.  `none` models nontermination of the advancing loop. -/
def QueryControlState.update (s : QueryControlState) (now : Int) (changed : Bool) :
    Option QueryControlState :=
  (updateRaw s now changed).map
    (fun e => { s with expectedInterval := some (recenter e) })

/-- A call on the metrics sink: setting a float gauge, setting an integer
gauge, or removing a labelled series (`remove_label_values`). -/
inductive Event where
  | setF (name : String) (labels : List String) (value : F32) : Event
  | setI (name : String) (labels : List String) (value : Nat) : Event
  | remove (name : String) (labels : List String) : Event
deriving DecidableEq

/-- The seven gauge writes performed for one reading, in source order
(main.rs lines 200-206 and control.rs lines 55-61). -/
def setEvents (labels : List String) (v : SensorValues) : List Event :=
  [ .setF "humidity" labels v.humidity,
    .setF "temperature" labels v.temp,
    .setF "atm_pressure" labels v.atm,
    .setI "radon_short" labels v.radon_short,
    .setI "radon_long" labels v.radon_long,
    .setI "co2" labels v.co2,
    .setI "voc" labels v.voc ]

/-- The seven gauge removals performed by a staleness sweep, in source
order (control.rs lines 68-74). -/
def staleRemoveEvents (labels : List String) : List Event :=
  [ .remove "humidity" labels,
    .remove "temperature" labels,
    .remove "atm_pressure" labels,
    .remove "radon_short" labels,
    .remove "radon_long" labels,
    .remove "co2" labels,
    .remove "voc" labels ]

/-- The struct `PeripheralQueryControl` of control.rs (the metrics handle
is externalised into `Event` lists). -/
structure PeripheralState where
  labelValues : List String
  queryControl : QueryControlState
  updateInterval : Nat
  lastValues : Option SensorValues
  lastValuesTime : Int
deriving DecidableEq

/-- `PeripheralQueryControl::update` of control.rs: compute `changed` from
the previous reading using the NaN-asymmetric `!=`, store the reading and
timestamp, feed `changed` to the predictor, and write all seven gauges.
`none` propagates nontermination of the predictor's advancing loop. -/
def PeripheralState.updateValues (s : PeripheralState) (now : Int) (values : SensorValues) :
    Option (PeripheralState × List Event) :=
  let changed : Bool :=
    match s.lastValues with
    | none => true
    | some last => !(SensorValues.eq last values)
  (s.queryControl.update now changed).map
    (fun qc =>
      ({ s with lastValues := some values, lastValuesTime := now, queryControl := qc },
       setEvents s.labelValues values))

/-- `PeripheralQueryControl::remove_metric_if_stale` of control.rs.  The
source method takes `&self`; the state component of the result is returned
unchanged to make that explicit.  Metrics are removed exactly when the time
since the last stored update exceeds twice the update interval. -/
def PeripheralState.removeMetricIfStale (s : PeripheralState) (now : Int) :
    PeripheralState × List Event :=
  if 2 * (s.updateInterval : Int) < durationSince now s.lastValuesTime then
    (s, staleRemoveEvents s.labelValues)
  else
    (s, [])

/-- One discovered BLE peripheral as the poll loop of main.rs sees it:
the result of `properties()` (outer `none` is an `Err`, inner `none` is
absent properties; inside, the manufacturer-data map), and the outcomes of
`connect`, `discover_services`, the characteristic search, and `read`. -/
structure Peripheral where
  propertiesResult : Option (Option (List (Nat × List Nat)))
  connectOk : Bool
  discoverServicesOk : Bool
  hasSensorChar : Bool
  readResult : Option (List Nat)
deriving DecidableEq

/-- Result of the poll loop's handling of one peripheral: silently skipped
after a logged failure, completed with a list of metric-sink calls, or a
Rust panic that propagates out of the loop. -/
inductive Outcome where
  | skipped : Outcome
  | done (events : List Event) : Outcome
  | panicked : Outcome
deriving DecidableEq

/-- `query_peripheral` of main.rs (lines 166-207): skip on service
discovery failure, missing characteristic, or read error; decode the
payload and write all seven gauges.  A decode panic (short payload) is not
caught and yields `.panicked`.  Note that this function never consults any
controller and never calls a predictor update. -/
def queryPeripheral (p : Peripheral) (labels : List String) : Outcome :=
  if !p.discoverServicesOk then .skipped
  else if !p.hasSensorChar then .skipped
  else
    match p.readResult with
    | none => .skipped
    | some data =>
      match SensorValues.fromVec data with
      | none => .panicked
      | some v => .done (setEvents labels v)

/-- The body of the per-peripheral loop in `query_peripherals` of main.rs
(lines 124-161): skip on a properties error or absent properties; if the
manufacturer-data map has key 820, extract the serial from its first four
bytes (indexing panics when fewer are present), connect (skip on failure),
then look up the label values — `devices_labels.get(...).unwrap()` panics
for a serial absent from the configuration — and run `query_peripheral`. -/
def processPeripheral (devicesLabels : List (String × List String)) (p : Peripheral) : Outcome :=
  match p.propertiesResult with
  | none => .skipped
  | some none => .skipped
  | some (some manufacturerData) =>
    match manufacturerData.lookup 820 with
    | none => .done []
    | some md =>
      match md.get? 0, md.get? 1, md.get? 2, md.get? 3 with
      | some b0, some b1, some b2, some b3 =>
        let serial := b3 * 16777216 + b2 * 65536 + b1 * 256 + b0
        if !p.connectOk then .skipped
        else
          match devicesLabels.lookup (toString serial) with
          | none => .panicked
          | some labelValues => queryPeripheral p labelValues
      | _, _, _, _ => .panicked

/-- One tick of `query_peripherals` over one adapter's peripheral list.
A panic in any peripheral's handling propagates and aborts the whole tick
(`none`); otherwise the per-peripheral outcomes are collected in order. -/
def queryPeripherals (devicesLabels : List (String × List String)) :
    List Peripheral → Option (List Outcome)
  | [] => some []
  | p :: rest =>
    match processPeripheral devicesLabels p with
    | .panicked => none
    | o => (queryPeripherals devicesLabels rest).map (fun os => o :: os)

/-- The metric-sink calls of an outcome. -/
def outcomeEvents : Outcome → List Event
  | .done evs => evs
  | _ => []

/-- Whether an event is a metric removal. -/
def Event.isRemove : Event → Bool
  | .remove _ _ => true
  | _ => false

/-- All metric removals a tick emits (none when the tick panics). -/
def emittedRemoves (devicesLabels : List (String × List String))
    (ps : List Peripheral) : List Event :=
  match queryPeripherals devicesLabels ps with
  | none => []
  | some os => (os.map outcomeEvents).flatten.filter Event.isRemove

/-- The per-device value-resolution loop of `load_device_labels` in
config.rs (lines 40-43): each label name in order, with
`unwrap_or(default)` substituting the empty string for a name the device's
table does not define. -/
def resolveLabelValues (labelNames : List String) (deviceLabels : List (String × String)) :
    List String :=
  labelNames.map (fun name => ((deviceLabels.lookup name).getD ""))

/-- The same loop as it appears in main.rs (lines 96-99), where the value
lookup is `unwrap()`ed: a missing label name panics (`none`) instead of
defaulting. -/
def mainResolveLabelValues (labelNames : List String) (deviceLabels : List (String × String)) :
    Option (List String) :=
  labelNames.mapM (fun name => deviceLabels.lookup name)

/-- A peripheral advertising Airthings manufacturer data (key 820) whose
connect, service discovery and characteristic lookup succeed. -/
def airthingsPeripheral (mdBytes : List Nat) (readResult : Option (List Nat)) : Peripheral :=
  { propertiesResult := some (some [(820, mdBytes)]),
    connectOk := true,
    discoverServicesOk := true,
    hasSensorChar := true,
    readResult := readResult }

/-- The Scenario A payload: FF 64 00 00 05 00 0A 00 5A 0A 90 01 80 02 32 00. -/
def scenarioABytes : List Nat :=
  [255, 100, 0, 0, 5, 0, 10, 0, 90, 10, 144, 1, 128, 2, 50, 0]

/-- The reading Scenario A is expected to decode to (26.50 is 53/2, exactly
representable in f32, as are 50 and 8). -/
def scenarioAValues : SensorValues :=
  { humidity := F32.num 50, temp := F32.num (53/2), atm := F32.num 8,
    radon_short := 5, radon_long := 10, co2 := 640, voc := 50 }

/-- Decoding the Scenario A payload. -/
theorem fromVec_scenarioA :
    SensorValues.fromVec scenarioABytes = some scenarioAValues := by
  simp only [scenarioABytes, scenarioAValues, SensorValues.fromVec]
  norm_num

/-- Whatever interval the re-centering block of `update` returns is
well-ordered and at least 10 s wide. -/
theorem recenter_ok (e : Int × Int) :
    (recenter e).1 ≤ (recenter e).2 ∧ 10 ≤ (recenter e).2 - (recenter e).1 := by
  rcases e with ⟨l, u⟩
  by_cases h : durationSince u l < 10
  · rw [recenter, if_pos h]
    dsimp only
    constructor <;> omega
  · rw [recenter, if_neg h]
    dsimp only
    rw [durationSince] at h
    by_cases h2 : l ≤ u
    · rw [if_pos h2] at h
      constructor <;> omega
    · rw [if_neg h2] at h
      omega

/-- Predictor states of Scenario B. -/
def scenarioB0 : QueryControlState := ⟨300, none⟩

/-- Scenario B state after `update(0, changed=true)`. -/
def scenarioB1 : QueryControlState := ⟨300, some (0, 300)⟩

/-- Scenario B state after `update(160, changed=false)`. -/
def scenarioB2 : QueryControlState := ⟨300, some (160, 300)⟩

/-- Scenario B state after `update(235, changed=true)`. -/
def scenarioB3 : QueryControlState := ⟨300, some (460, 535)⟩

/-- C1: Scenario B trace of the predictor with period 300 s from the unset
state: `shouldPoll(0)` is true; `update(0, true)` seeds the interval
(0, 300); `shouldPoll(100)` is false because the next query point is the
midpoint 150; `shouldPoll(160)` is true; `update(160, false)` keeps the
later half (160, 300); the next query point is the midpoint 230, so
`shouldPoll(235)` is true; `update(235, true)` takes the earlier half
advanced one period, (460, 535). -/
theorem predictor_scenarioB_trace :
    scenarioB0.should_query 0 = true
    ∧ scenarioB0.update 0 true = some scenarioB1
    ∧ scenarioB1.expectedInterval = some (0, 300)
    ∧ nextQueryInterval (0, 300) = 150
    ∧ scenarioB1.should_query 100 = false
    ∧ scenarioB1.should_query 160 = true
    ∧ scenarioB1.update 160 false = some scenarioB2
    ∧ scenarioB2.expectedInterval = some (160, 300)
    ∧ nextQueryInterval (160, 300) = 230
    ∧ scenarioB2.should_query 235 = true
    ∧ scenarioB2.update 235 true = some scenarioB3
    ∧ scenarioB3.expectedInterval = some (460, 535) := by
  decide

/-- C2: for every predictor state whose interval, if set, is well-ordered
and at least 10 s wide, every completed `update` leaves the interval set,
well-ordered and at least 10 s wide (the re-centering block restores the
bound whenever a case narrows the interval). -/
theorem predictor_update_interval_invariant
    (s s' : QueryControlState) (now : Int) (changed : Bool)
    (_hpre : ∀ l u, s.expectedInterval = some (l, u) → l ≤ u ∧ 10 ≤ u - l)
    (hup : s.update now changed = some s') :
    ∃ l u, s'.expectedInterval = some (l, u) ∧ l ≤ u ∧ 10 ≤ u - l := by
  unfold QueryControlState.update at hup
  obtain ⟨e, -, rfl⟩ := Option.map_eq_some'.mp hup
  exact ⟨(recenter e).1, (recenter e).2, rfl, recenter_ok e⟩

/-- Witness for C2 at the state (period 300, interval (0, 300)) with
`update(50, changed=false)`, which yields the interval (50, 300). -/
theorem predictor_update_interval_invariant_witness :
    ∃ l u, (⟨300, some (50, 300)⟩ : QueryControlState).expectedInterval = some (l, u)
      ∧ l ≤ u ∧ 10 ≤ u - l :=
  predictor_update_interval_invariant ⟨300, some (0, 300)⟩ ⟨300, some (50, 300)⟩ 50 false
    (fun l u h => by
      simp only [Option.some.injEq, Prod.mk.injEq] at h
      obtain ⟨rfl, rfl⟩ := h
      exact ⟨by norm_num, by norm_num⟩)
    (by decide)

/-- C8: the Scenario A payload decodes to humidity 50, radon short term 5,
radon long term 10, temperature 26.50 (= 53/2), pressure 8, CO2 640 and
VOC 50 — byte 0 skipped, humidity from byte 1 halved, little-endian u16
fields at the fixed offsets, temperature scaled by 1/100, pressure by
1/50. -/
theorem decode_scenarioA :
    SensorValues.fromVec scenarioABytes = some scenarioAValues :=
  fromVec_scenarioA

/-- A reading whose humidity is NaN, all other fields ordinary. -/
def c9NanReading : SensorValues :=
  { humidity := F32.nan, temp := F32.num 25, atm := F32.num 990,
    radon_short := 5, radon_long := 10, co2 := 640, voc := 50 }

/-- The same reading with a non-NaN humidity. -/
def c9NumReading : SensorValues :=
  { humidity := F32.num 50, temp := F32.num 25, atm := F32.num 990,
    radon_short := 5, radon_long := 10, co2 := 640, voc := 50 }

/-- Controller state holding the NaN reading, predictor interval (0, 300). -/
def c9StateNan : PeripheralState :=
  { labelValues := ["1"], queryControl := ⟨300, some (0, 300)⟩,
    updateInterval := 300, lastValues := some c9NanReading, lastValuesTime := 0 }

/-- Controller state holding the non-NaN reading, predictor interval
(0, 300). -/
def c9StateNum : PeripheralState :=
  { labelValues := ["1"], queryControl := ⟨300, some (0, 300)⟩,
    updateInterval := 300, lastValues := some c9NumReading, lastValuesTime := 0 }

/-- C9: `SensorValues` equality is not symmetric — with NaN humidity on the
left and a number on the right it returns true, in the other order false —
and not reflexive on a NaN reading.  Consequently the controller's update
at `now = 100` inside the interval (0, 300) treats the NaN-to-number
transition as unchanged (the predictor keeps the later half (100, 300))
but the number-to-NaN transition as changed (the predictor advances to
(300, 400)). -/
theorem sensor_values_eq_nan_asymmetric :
    SensorValues.eq c9NanReading c9NumReading = true
    ∧ SensorValues.eq c9NumReading c9NanReading = false
    ∧ SensorValues.eq c9NanReading c9NanReading = false
    ∧ (c9StateNan.updateValues 100 c9NumReading).map
        (fun r => r.1.queryControl.expectedInterval) = some (some (100, 300))
    ∧ (c9StateNum.updateValues 100 c9NanReading).map
        (fun r => r.1.queryControl.expectedInterval) = some (some (300, 400)) := by
  decide

/-- With a positive period, the interval-advancing loop exits within any
fuel exceeding the gap between `now` and the upper bound. -/
theorem advanceFuel_pos_some (p : Nat) (hp : 0 < p) (now : Int) :
    ∀ (fuel : Nat) (e : Int × Int), (now - e.2).toNat < fuel →
      ∃ r, advanceFuel p now fuel e = some r := by
  intro fuel
  induction fuel with
  | zero => intro e h; omega
  | succ f ih =>
    intro e h
    rw [advanceFuel]
    by_cases h2 : e.2 < now
    · rw [if_pos h2]
      apply ih
      dsimp only
      omega
    · rw [if_neg h2]
      exact ⟨e, rfl⟩

/-- With period zero the interval-advancing loop never exits once `now` is
past the upper bound: it exhausts every fuel, i.e. the source's `while`
loop runs forever. -/
theorem advanceFuel_zero_none (now : Int) :
    ∀ (fuel : Nat) (l u : Int), u < now → advanceFuel 0 now fuel (l, u) = none := by
  intro fuel
  induction fuel with
  | zero => intro l u _; rfl
  | succ f ih =>
    intro l u h
    rw [advanceFuel, if_pos h]
    exact ih (l + ((0 : Nat) : Int)) (u + ((0 : Nat) : Int)) (by simpa using h)

/-- C10: predictor `update` terminates for every state and input when the
configured period is positive; with period 0 and `now` past the upper
bound, the advancing loop of the late-poll changed case never terminates
(every fuel yields `none`), so `update` diverges there. -/
theorem predictor_update_termination :
    (∀ (s : QueryControlState) (now : Int) (changed : Bool),
        0 < s.sensorUpdateInterval → ∃ s', s.update now changed = some s')
    ∧ (∀ (l u now : Int) (fuel : Nat), u < now → advanceFuel 0 now fuel (l, u) = none)
    ∧ (∀ (l u now : Int), u < now →
        QueryControlState.update ⟨0, some (l, u)⟩ now true = none) := by
  refine ⟨?_, ?_, ?_⟩
  · intro s now changed hp
    have hraw : ∃ e, updateRaw s now changed = some e := by
      obtain ⟨p, ei⟩ := s
      cases ei with
      | none => exact ⟨_, rfl⟩
      | some e =>
        show ∃ r, updateRaw ⟨p, some e⟩ now changed = some r
        rw [updateRaw]
        dsimp only
        by_cases h1 : e.1 ≤ now ∧ now ≤ e.2
        · rw [if_pos h1]
          cases changed <;> exact ⟨_, rfl⟩
        · rw [if_neg h1]
          by_cases h2 : e.2 < now
          · rw [if_pos h2]
            cases changed
            · exact ⟨_, rfl⟩
            · exact advanceFuel_pos_some p hp now _ e (by omega)
          · rw [if_neg h2]
            cases changed <;> exact ⟨_, rfl⟩
    obtain ⟨e, he⟩ := hraw
    exact ⟨_, by rw [QueryControlState.update, he]; rfl⟩
  · intro l u now fuel h
    exact advanceFuel_zero_none now fuel l u h
  · intro l u now h
    have hraw : updateRaw ⟨0, some (l, u)⟩ now true = none := by
      rw [updateRaw]
      dsimp only
      rw [if_neg (by dsimp only; omega : ¬((l, u).1 ≤ now ∧ now ≤ (l, u).2))]
      rw [if_pos (by dsimp only; omega : (l, u).2 < now)]
      rw [if_pos rfl]
      exact advanceFuel_zero_none now _ l u h
    rw [QueryControlState.update, hraw]
    rfl

/-- Witness for C10: with period 300 and no interval, `update(0, true)`
returns; with period 0 and interval (0, 2), `update(7, true)` diverges, as
does the advancing loop for any concrete fuel. -/
theorem predictor_update_termination_witness :
    (∃ s', (⟨300, none⟩ : QueryControlState).update 0 true = some s')
    ∧ advanceFuel 0 7 3 (0, 2) = none
    ∧ (⟨0, some (0, 2)⟩ : QueryControlState).update 7 true = none :=
  ⟨predictor_update_termination.1 ⟨300, none⟩ 0 true (by decide),
   predictor_update_termination.2.1 0 2 7 3 (by decide),
   predictor_update_termination.2.2 0 2 7 (by decide)⟩

/-- Scenario C controller state: period 300 s, last update at time 0. -/
def scenarioCState : PeripheralState :=
  { labelValues := ["1"], queryControl := ⟨300, some (0, 300)⟩,
    updateInterval := 300, lastValues := none, lastValuesTime := 0 }

/-- C5: `remove_metric_if_stale(now)` removes the device's metric entries
iff `now - lastUpdateTime` strictly exceeds twice the period, and leaves
the controller state (stored reading, timestamp, predictor) unchanged; in
particular with period 300 and last update at 0, a sweep at 601 removes
the metrics and a sweep at 599 retains them. -/
theorem controller_stale_removal_iff :
    (∀ (s : PeripheralState) (now : Int),
        (s.removeMetricIfStale now).1 = s ∧
        ((s.removeMetricIfStale now).2 ≠ [] ↔
          2 * (s.updateInterval : Int) < now - s.lastValuesTime))
    ∧ (scenarioCState.removeMetricIfStale 601).2 = staleRemoveEvents ["1"]
    ∧ (scenarioCState.removeMetricIfStale 599).2 = [] := by
  refine ⟨fun s now => ?_, by decide, by decide⟩
  have hcast : (0 : Int) ≤ 2 * (s.updateInterval : Int) := by positivity
  by_cases h : 2 * (s.updateInterval : Int) < durationSince now s.lastValuesTime
  · rw [PeripheralState.removeMetricIfStale, if_pos h]
    refine ⟨rfl, ?_⟩
    rw [durationSince] at h
    constructor
    · intro _
      split at h <;> omega
    · intro _
      simp [staleRemoveEvents]
  · rw [PeripheralState.removeMetricIfStale, if_neg h]
    refine ⟨rfl, ?_⟩
    rw [durationSince] at h
    constructor
    · intro hne
      exact absurd rfl hne
    · intro hlt
      exfalso
      split at h <;> omega

/-- An IEEE-equal comparison of a float with itself is an equality unless
the float is NaN. -/
theorem F32.fne_self (x : F32) (h : F32.isNan x = false) : F32.fne x x = false := by
  cases x
  · simp [F32.isNan] at h
  · simp [F32.fne, F32.feq]

/-- A true `SensorValues` comparison forces the four integer fields to
agree (the integer checks are the last four early returns). -/
theorem SensorValues.eq_int_fields (a b : SensorValues) (h : SensorValues.eq a b = true) :
    a.radon_short = b.radon_short ∧ a.radon_long = b.radon_long ∧
      a.co2 = b.co2 ∧ a.voc = b.voc := by
  unfold SensorValues.eq at h
  repeat' split at h
  all_goals simp_all

/-- C7: readings whose float fields are equal and non-NaN and whose integer
fields are equal compare equal; readings differing in any integer field
compare unequal. -/
theorem sensor_values_eq_fieldwise :
    (∀ a b : SensorValues,
        a.humidity = b.humidity → F32.isNan a.humidity = false →
        a.temp = b.temp → F32.isNan a.temp = false →
        a.atm = b.atm → F32.isNan a.atm = false →
        a.radon_short = b.radon_short → a.radon_long = b.radon_long →
        a.co2 = b.co2 → a.voc = b.voc →
        SensorValues.eq a b = true)
    ∧ (∀ a b : SensorValues,
        a.radon_short ≠ b.radon_short ∨ a.radon_long ≠ b.radon_long ∨
          a.co2 ≠ b.co2 ∨ a.voc ≠ b.voc →
        SensorValues.eq a b = false) := by
  constructor
  · intro a b hh hhn ht htn ha han hrs hrl hc hv
    rw [hh] at hhn
    rw [ht] at htn
    rw [ha] at han
    simp only [SensorValues.eq, hh, ht, ha, hrs, hrl, hc, hv,
      F32.fne_self _ hhn, F32.fne_self _ htn, F32.fne_self _ han]
    simp
  · intro a b hne
    cases heq : SensorValues.eq a b
    · rfl
    · obtain ⟨h1, h2, h3, h4⟩ := SensorValues.eq_int_fields a b heq
      rcases hne with h | h | h | h
      exacts [(h h1).elim, (h h2).elim, (h h3).elim, (h h4).elim]

/-- Witness for C7: a reading compares equal to itself when NaN-free, and
changing only the CO2 field makes the comparison false. -/
theorem sensor_values_eq_fieldwise_witness :
    SensorValues.eq c9NumReading c9NumReading = true
    ∧ SensorValues.eq c9NumReading { c9NumReading with co2 := 700 } = false :=
  ⟨sensor_values_eq_fieldwise.1 c9NumReading c9NumReading rfl (by decide) rfl (by decide)
      rfl (by decide) rfl rfl rfl rfl,
   sensor_values_eq_fieldwise.2 c9NumReading { c9NumReading with co2 := 700 }
      (Or.inr (Or.inr (Or.inl (by decide))))⟩

/-- `query_peripheral` emits only gauge writes, never metric removals. -/
theorem queryPeripheral_no_remove (p : Peripheral) (labels : List String) :
    (outcomeEvents (queryPeripheral p labels)).filter Event.isRemove = [] := by
  unfold queryPeripheral
  repeat' split
  all_goals simp [outcomeEvents, setEvents, Event.isRemove]

/-- The per-peripheral loop body emits only gauge writes, never metric
removals: `remove_metric_if_stale` is never called by the poll loop. -/
theorem processPeripheral_no_remove (dl : List (String × List String)) (p : Peripheral) :
    (outcomeEvents (processPeripheral dl p)).filter Event.isRemove = [] := by
  rw [processPeripheral]
  cases p.propertiesResult with
  | none => rfl
  | some mdo =>
    cases mdo with
    | none => rfl
    | some md =>
      try dsimp only
      cases List.lookup 820 md with
      | none => rfl
      | some bytes =>
        try dsimp only
        cases bytes.get? 0 with
        | none => rfl
        | some b0 =>
          try dsimp only
          cases bytes.get? 1 with
          | none => rfl
          | some b1 =>
            try dsimp only
            cases bytes.get? 2 with
            | none => rfl
            | some b2 =>
              try dsimp only
              cases bytes.get? 3 with
              | none => rfl
              | some b3 =>
                try dsimp only
                cases p.connectOk with
                | false => rfl
                | true =>
                  try dsimp only
                  cases List.lookup (toString (b3 * 16777216 + b2 * 65536 + b1 * 256 + b0)) dl with
                  | none => rfl
                  | some labelValues => exact queryPeripheral_no_remove p labelValues

/-- No tick of the poll loop ever emits a metric removal. -/
theorem emittedRemoves_nil (dl : List (String × List String)) (ps : List Peripheral) :
    emittedRemoves dl ps = [] := by
  induction ps with
  | nil => rfl
  | cons p rest ih =>
    have hnp := processPeripheral_no_remove dl p
    rw [emittedRemoves, queryPeripherals]
    cases hpp : processPeripheral dl p with
    | panicked => rfl
    | skipped =>
      dsimp only
      cases hq : queryPeripherals dl rest with
      | none => rfl
      | some os =>
        rw [emittedRemoves, hq] at ih
        dsimp only at ih
        simp only [Option.map_some']
        try dsimp only
        rw [List.map_cons, List.flatten_cons, List.filter_append]
        dsimp only [outcomeEvents]
        rw [ih]
        rfl
    | done evs =>
      dsimp only
      rw [hpp] at hnp
      simp only [outcomeEvents] at hnp
      cases hq : queryPeripherals dl rest with
      | none => rfl
      | some os =>
        rw [emittedRemoves, hq] at ih
        dsimp only at ih
        simp only [Option.map_some']
        try dsimp only
        rw [List.map_cons, List.flatten_cons, List.filter_append]
        dsimp only [outcomeEvents]
        rw [hnp, ih]
        rfl

/-- Predictor state with interval (0, 300), for which `should_query(100)`
is false (the next query point is the midpoint 150). -/
def c3Control : QueryControlState := ⟨300, some (0, 300)⟩

/-- Configuration mapping serial 1 to the single label value list. -/
def pollDevicesLabels : List (String × List String) := [("1", ["1"])]

/-- A discovered peripheral with serial 1 whose read yields the Scenario A
payload. -/
def c3Peripheral : Peripheral := airthingsPeripheral [1, 0, 0, 0] (some scenarioABytes)

/-- C3: what the poll loop actually does.  No tick ever emits a metric
removal (the loop never calls `remove_metric_if_stale`), and a discovered
device is connected, read, decoded and written to the metrics sink even
when a predictor in state (period 300, interval (0, 300)) at `now = 100`
answers `should_query = false` — the loop consults no controller at all,
contradicting the claimed skip-iff-shouldQuery behaviour and the claimed
staleness sweep. -/
theorem poll_loop_reads_unconditionally_and_never_sweeps :
    (∀ (dl : List (String × List String)) (ps : List Peripheral), emittedRemoves dl ps = [])
    ∧ c3Control.should_query 100 = false
    ∧ queryPeripherals pollDevicesLabels [c3Peripheral] =
        some [Outcome.done (setEvents ["1"] scenarioAValues)] := by
  refine ⟨emittedRemoves_nil, by decide, ?_⟩
  have hq' : queryPeripheral c3Peripheral ["1"] =
      Outcome.done (setEvents ["1"] scenarioAValues) := by
    simp [queryPeripheral, c3Peripheral, airthingsPeripheral, fromVec_scenarioA]
  have hl : List.lookup (toString 1) [("1", ["1"])] = some ["1"] := by decide
  have hmd : List.lookup 820 [(820, [1, 0, 0, 0])] = some [1, 0, 0, 0] := by decide
  have hpp : processPeripheral pollDevicesLabels c3Peripheral =
      Outcome.done (setEvents ["1"] scenarioAValues) := by
    simp [processPeripheral, c3Peripheral, airthingsPeripheral, pollDevicesLabels,
      hmd, hl, List.get?]
    exact hq'
  rw [queryPeripherals, hpp]
  rfl

/-- The Scenario A payload truncated to 15 bytes. -/
def shortPayloadBytes : List Nat := [255, 100, 0, 0, 5, 0, 10, 0, 90, 10, 144, 1, 128, 2, 50]

/-- A discovered peripheral with serial 1 whose read yields the truncated
payload. -/
def c4Peripheral : Peripheral := airthingsPeripheral [1, 0, 0, 0] (some shortPayloadBytes)

/-- C4 counterexample: on a 15-byte payload the decode panics and the panic
propagates — the outcome is a crash of the tick, not a skipped device, so
the short payload is not handled as an error result. -/
theorem decode_error_counterexample :
    queryPeripheral c4Peripheral ["1"] = Outcome.panicked
    ∧ queryPeripheral c4Peripheral ["1"] ≠ Outcome.skipped
    ∧ queryPeripherals pollDevicesLabels [c4Peripheral] = none := by
  decide

/-- C4 amended: `from_vec` on any payload shorter than 16 bytes panics
(there is no DecodeError type and the caller does not catch the panic), so
a successful read with a short payload crashes the poll loop instead of
skipping the device; no predictor update occurs on such a failure, since
the process aborts (and the loop never calls a predictor anyway). -/
theorem decode_short_payload_panics (data : List Nat) (h : data.length < 16) :
    SensorValues.fromVec data = none
    ∧ (∀ (p : Peripheral) (labels : List String),
        p.discoverServicesOk = true → p.hasSensorChar = true → p.readResult = some data →
        queryPeripheral p labels = Outcome.panicked) := by
  have hnone : SensorValues.fromVec data = none := by
    match data, h with
    | [], _ => rfl
    | [_], _ => rfl
    | [_, _], _ => rfl
    | [_, _, _], _ => rfl
    | [_, _, _, _], _ => rfl
    | [_, _, _, _, _], _ => rfl
    | [_, _, _, _, _, _], _ => rfl
    | [_, _, _, _, _, _, _], _ => rfl
    | [_, _, _, _, _, _, _, _], _ => rfl
    | [_, _, _, _, _, _, _, _, _], _ => rfl
    | [_, _, _, _, _, _, _, _, _, _], _ => rfl
    | [_, _, _, _, _, _, _, _, _, _, _], _ => rfl
    | [_, _, _, _, _, _, _, _, _, _, _, _], _ => rfl
    | [_, _, _, _, _, _, _, _, _, _, _, _, _], _ => rfl
    | [_, _, _, _, _, _, _, _, _, _, _, _, _, _], _ => rfl
    | [_, _, _, _, _, _, _, _, _, _, _, _, _, _, _], _ => rfl
    | _ :: _ :: _ :: _ :: _ :: _ :: _ :: _ :: _ :: _ :: _ :: _ :: _ :: _ :: _ :: _ :: _,
        hh => exact absurd hh (by simp)
  refine ⟨hnone, fun p labels h1 h2 h3 => ?_⟩
  simp [queryPeripheral, h1, h2, h3, hnone]

/-- Witness for C4's amended claim at the 15-byte payload. -/
theorem decode_short_payload_panics_witness :
    SensorValues.fromVec shortPayloadBytes = none
    ∧ queryPeripheral c4Peripheral ["1"] = Outcome.panicked :=
  ⟨(decode_short_payload_panics shortPayloadBytes (by decide)).1,
   (decode_short_payload_panics shortPayloadBytes (by decide)).2 c4Peripheral ["1"] rfl rfl rfl⟩

/-- Configuration containing only serial 111. -/
def c6Labels : List (String × List String) := [("111", ["111", "x"])]

/-- A discovered peripheral with serial 222, absent from the
configuration. -/
def c6Peripheral : Peripheral := airthingsPeripheral [222, 0, 0, 0] (some scenarioABytes)

/-- C6 counterexample: for serial 222, absent from the configuration, label
resolution yields nothing — there is no fallback giving the identity as
sole label — and the poll loop's `unwrap` panics, aborting the tick rather
than proceeding. -/
theorem unknown_identity_lookup_panics :
    List.lookup (toString (0 * 16777216 + 0 * 65536 + 0 * 256 + 222)) c6Labels = none
    ∧ processPeripheral c6Labels c6Peripheral = Outcome.panicked
    ∧ queryPeripherals c6Labels [c6Peripheral] = none := by
  decide

/-- C6 amended: for identities present in the configuration the config.rs
loader substitutes the empty string for every undefined label name; the
main.rs copy of the loader instead panics on an undefined name; and for an
identity absent from the configuration the poll loop's label lookup panics
and aborts the tick — no fallback labels the device with its identity. -/
theorem label_resolution_defaults_and_unknown_panics :
    (∀ (labelNames : List String) (deviceLabels : List (String × String)) (i : Nat) (n : String),
        labelNames.get? i = some n → deviceLabels.lookup n = none →
        (resolveLabelValues labelNames deviceLabels).get? i = some "")
    ∧ (∀ (labelNames : List String) (deviceLabels : List (String × String)) (n : String),
        n ∈ labelNames → deviceLabels.lookup n = none →
        mainResolveLabelValues labelNames deviceLabels = none)
    ∧ (∀ (dl : List (String × List String)) (b0 b1 b2 b3 : Nat) (r : Option (List Nat)),
        dl.lookup (toString (b3 * 16777216 + b2 * 65536 + b1 * 256 + b0)) = none →
        processPeripheral dl (airthingsPeripheral [b0, b1, b2, b3] r) = Outcome.panicked
        ∧ queryPeripherals dl [airthingsPeripheral [b0, b1, b2, b3] r] = none) := by
  refine ⟨?_, ?_, ?_⟩
  · intro ln dl i n h1 h2
    rw [resolveLabelValues, List.get?_map, h1]
    simp [h2]
  · intro ln dl n hmem hnone
    induction ln with
    | nil => cases hmem
    | cons x xs ih =>
      rcases List.mem_cons.mp hmem with rfl | hmem'
      · simp only [mainResolveLabelValues, List.mapM_cons, hnone]
        rfl
      · have ht := ih hmem'
        rw [mainResolveLabelValues] at ht
        simp only [mainResolveLabelValues, List.mapM_cons, ht]
        cases dl.lookup x <;> rfl
  · intro dl b0 b1 b2 b3 r h
    have hpp : processPeripheral dl (airthingsPeripheral [b0, b1, b2, b3] r) =
        Outcome.panicked := by
      simp [processPeripheral, airthingsPeripheral, List.lookup, h]
    refine ⟨hpp, ?_⟩
    rw [queryPeripherals, hpp]

/-- Witness for C6's amended claim: a configured device with a missing
label name resolves it to the empty string (config.rs) or panics
(main.rs), and the unknown serial 222 panics the loop. -/
theorem label_resolution_defaults_and_unknown_panics_witness :
    (resolveLabelValues ["serial", "name"] [("serial", "111")]).get? 1 = some ""
    ∧ mainResolveLabelValues ["serial", "name"] [("serial", "111")] = none
    ∧ processPeripheral c6Labels c6Peripheral = Outcome.panicked :=
  ⟨label_resolution_defaults_and_unknown_panics.1 ["serial", "name"] [("serial", "111")]
      1 "name" rfl (by decide),
   label_resolution_defaults_and_unknown_panics.2.1 ["serial", "name"] [("serial", "111")]
      "name" (by decide) (by decide),
   (label_resolution_defaults_and_unknown_panics.2.2 c6Labels 222 0 0 0
      (some scenarioABytes) (by decide)).1⟩
